import Mathlib

/-!
Verification development for the Sekretory repository (four Telegram-bot
variants).  The two variants with real logic are embedded here:

* namespace `RRR`   — shallow embedding of `src/rrr.py`   (the variant with a
  `matches` table; likes are deleted when promoted to a match);
* namespace `Ridon` — shallow embedding of `src/ridon.py` (the variant that
  marks likes `is_mutual` in place and has `reports` / `profile_views`).

Conventions of the embedding:
* SQLite rows become Lean structures, tables become lists of rows kept in the
  order of insertion (`INSERT` appends, `UPDATE ... WHERE` maps over rows,
  `DELETE ... WHERE` filters).
* Dates produced by `datetime.now().strftime("%Y-%m-%d")` are modelled as a
  `Nat` day number: the source only ever compares them for equality.
* Instants produced by `datetime.now()` are modelled as a `Nat` measured in
  hours, so `now + timedelta(hours=24)` becomes `now + 24`.
* `uuid.uuid4()` for match ids is modelled by a fresh-id counter on the state.
* Every function takes its `now` / `today` reading explicitly.
-/

namespace RRR

/-- `CHAT_DURATION_HOURS = 24` from `src/rrr.py`. -/
def CHAT_DURATION_HOURS : Nat := 24

/-- `LIKES_PER_DAY_FREE = 1000000` from `src/rrr.py`. -/
def LIKES_PER_DAY_FREE : Nat := 1000000

/-- A row of the `users` table of `src/rrr.py` (the columns the core logic
reads; list-valued and purely cosmetic columns are omitted). -/
structure User where
  id : Nat
  telegram_id : Nat
  full_name : String
  age : Int
  gender : String
  search_gender : String
  search_age_min : Int
  search_age_max : Int
  likes_today : Nat
  likes_reset_date : Nat
  is_active : Bool
  is_premium : Bool
  is_banned : Bool
  last_seen : Nat
deriving Repr, DecidableEq

/-- A row of the `likes` table of `src/rrr.py` (directed edge on internal
user ids, `UNIQUE(from_user_id, to_user_id)`). -/
structure Like where
  from_user_id : Nat
  to_user_id : Nat
deriving Repr, DecidableEq

/-- A row of the `matches` table of `src/rrr.py`. -/
structure MatchRow where
  id : Nat
  user1_id : Nat
  user2_id : Nat
  chat_expires_at : Nat
  is_active : Bool
deriving Repr, DecidableEq

/-- The durable state of `src/rrr.py`: the tables the core logic touches,
plus the fresh-id counter standing in for `uuid.uuid4()`. -/
structure DB where
  users : List User
  likes : List Like
  match_rows : List MatchRow  -- the `matches` table (`matches` is a Lean keyword)
  next_match_id : Nat
deriving Repr, DecidableEq

/-- `Database.get_user_by_telegram_id`: `SELECT * FROM users WHERE
telegram_id = ?` (first matching row). -/
def get_user_by_telegram_id (db : DB) (telegram_id : Nat) : Option User :=
  db.users.find? (fun u => u.telegram_id == telegram_id)

/-- An `UPDATE users SET ... WHERE telegram_id = ?` statement: apply `f` to
every row whose `telegram_id` matches. -/
def update_users (db : DB) (telegram_id : Nat) (f : User → User) : DB :=
  { db with users := db.users.map (fun u => if u.telegram_id == telegram_id then f u else u) }

/-- `SELECT 1 FROM likes WHERE from_user_id = ? AND to_user_id = ?`
existence check. -/
def hasLike (likes : List Like) (a b : Nat) : Bool :=
  likes.any (fun l => l.from_user_id == a && l.to_user_id == b)

/-- `likes_limit = LIKES_PER_DAY_FREE if not from_user['is_premium'] else
9999` from `Database.create_like` of `src/rrr.py`. -/
def likes_limit (u : User) : Nat :=
  if u.is_premium = false then LIKES_PER_DAY_FREE else 9999

/-- `Database.create_like` of `src/rrr.py`: resolve both users, reset the
daily counter when stale, check the quota, `INSERT OR IGNORE` the like,
increment `likes_today`, check the reverse like; on reciprocity insert a
match expiring `CHAT_DURATION_HOURS` after `now` and delete both directed
likes.  Returns the `is_mutual` flag together with the new state. -/
def create_like (db : DB) (from_user_id to_user_id : Nat) (today now : Nat) :
    Bool × DB :=
  match get_user_by_telegram_id db from_user_id,
        get_user_by_telegram_id db to_user_id with
  | some fu0, some tu =>
    let db1 := if fu0.likes_reset_date ≠ today then
        update_users db from_user_id
          (fun u => { u with likes_today := 0, likes_reset_date := today })
      else db
    let fu := if fu0.likes_reset_date ≠ today then { fu0 with likes_today := 0 } else fu0
    if fu.likes_today ≥ likes_limit fu then (false, db1)
    else
      let db2 := if hasLike db1.likes fu.id tu.id then db1
        else { db1 with likes := db1.likes ++ [⟨fu.id, tu.id⟩] }
      let db3 := update_users db2 from_user_id
        (fun u => { u with likes_today := u.likes_today + 1 })
      let is_mutual := hasLike db3.likes tu.id fu.id
      if is_mutual then
        let db4 : DB := { db3 with
          match_rows := db3.match_rows ++
            [⟨db3.next_match_id, fu.id, tu.id, now + CHAT_DURATION_HOURS, true⟩],
          next_match_id := db3.next_match_id + 1 }
        let db5 : DB := { db4 with likes := db4.likes.filter (fun l =>
          !((l.from_user_id == fu.id && l.to_user_id == tu.id) ||
            (l.from_user_id == tu.id && l.to_user_id == fu.id))) }
        (true, db5)
      else (false, db3)
  | _, _ => (false, db)

/-- The `WHERE` clause of the candidate query in `Database.get_next_profile`
of `src/rrr.py`.  The match subquery reproduces the SQL operator precedence
of the source: `(u1 = v AND u2 = c) OR (u2 = v AND u1 = c AND active)`. -/
def eligible (db : DB) (viewer : User) (current_user_id : Nat) (u : User) : Bool :=
  u.telegram_id != current_user_id &&
  u.is_active && !u.is_banned &&
  decide (viewer.search_age_min ≤ u.age ∧ u.age ≤ viewer.search_age_max) &&
  !(hasLike db.likes viewer.id u.id) &&
  !(db.match_rows.any (fun m =>
      (m.user1_id == viewer.id && m.user2_id == u.id) ||
      (m.user2_id == viewer.id && m.user1_id == u.id && m.is_active))) &&
  (viewer.search_gender == "any" || u.gender == viewer.search_gender)

/-- `ORDER BY u.last_seen DESC LIMIT 1`: keep the row with the greatest
`last_seen` (ties keep the earlier row, as a stable sort would). -/
def pick_latest (l : List User) : Option User :=
  l.foldl (fun acc u => match acc with
    | none => some u
    | some b => if b.last_seen < u.last_seen then some u else some b) none

/-- `Database.get_next_profile` of `src/rrr.py`: filter the candidate set and
return the most recently seen row, `None` when the viewer is unknown or no
row qualifies. -/
def get_next_profile (db : DB) (current_user_id : Nat) : Option User :=
  match get_user_by_telegram_id db current_user_id with
  | none => none
  | some viewer => pick_latest (db.users.filter (eligible db viewer current_user_id))

/-- `Database.get_active_matches` of `src/rrr.py`: the match rows involving
the user with `is_active = 1` and `datetime(chat_expires_at) >
datetime('now')`.  The method only executes a `SELECT`, so the state comes
back unchanged; the `ORDER BY` is dropped (it only permutes the rows). -/
def get_active_matches (db : DB) (user_id : Nat) (now : Nat) :
    List MatchRow × DB :=
  match get_user_by_telegram_id db user_id with
  | none => ([], db)
  | some u =>
    (db.match_rows.filter (fun m =>
      (m.user1_id == u.id || m.user2_id == u.id) && m.is_active &&
      decide (now < m.chat_expires_at)), db)

end RRR

namespace Ridon

/-- `LIKES_PER_DAY_FREE = 20` from `src/ridon.py`. -/
def LIKES_PER_DAY_FREE : Nat := 20

/-- A row of the `users` table of `src/ridon.py` (the columns the core logic
reads). -/
structure User where
  user_id : Nat
  telegram_id : Nat
  full_name : String
  age : Int
  is_active : Bool
  is_banned : Bool
  is_premium : Bool
  likes_given_today : Nat
  likes_received_total : Nat
  last_like_reset_date : Nat
  updated_at : Nat
deriving Repr, DecidableEq

/-- A row of the `likes` table of `src/ridon.py` (directed edge on internal
user ids, `UNIQUE(from_user_id, to_user_id)`, with the in-place
`is_mutual` marker). -/
structure Like where
  from_user_id : Nat
  to_user_id : Nat
  is_mutual : Bool
deriving Repr, DecidableEq

/-- A row of the `reports` table of `src/ridon.py`. -/
structure Report where
  reporter_id : Nat
  reported_user_id : Nat
  reason : String
  status : String
deriving Repr, DecidableEq

/-- A row of the `profile_views` table of `src/ridon.py`. -/
structure ProfileView where
  viewer_id : Nat
  viewed_user_id : Nat
deriving Repr, DecidableEq

/-- The durable state of `src/ridon.py`: the tables the core logic touches. -/
structure DB where
  users : List User
  likes : List Like
  reports : List Report
  profile_views : List ProfileView
deriving Repr, DecidableEq

/-- `Database.get_user_by_telegram_id` of `src/ridon.py`. -/
def get_user_by_telegram_id (db : DB) (telegram_id : Nat) : Option User :=
  db.users.find? (fun u => u.telegram_id == telegram_id)

/-- An `UPDATE users SET ... WHERE telegram_id = ?` statement of
`src/ridon.py`. -/
def update_users (db : DB) (telegram_id : Nat) (f : User → User) : DB :=
  { db with users := db.users.map (fun u => if u.telegram_id == telegram_id then f u else u) }

/-- `Database.delete_user` of `src/ridon.py`: a single `DELETE FROM users
WHERE telegram_id = ?`.  The schema declares `ON DELETE CASCADE` on the
`likes`, `reports` and `profile_views` foreign keys, but the source never
issues `PRAGMA foreign_keys = ON` and the sqlite3 module leaves foreign-key
enforcement off by default, so at run time only the `users` row is
removed. -/
def delete_user (db : DB) (telegram_id : Nat) : DB :=
  { db with users := db.users.filter (fun u => !(u.telegram_id == telegram_id)) }

/-- `Database.reset_daily_likes_if_needed` of `src/ridon.py`: when the user
exists and `last_like_reset_date` is not today, zero `likes_given_today`
and stamp the date. -/
def reset_daily_likes_if_needed (db : DB) (telegram_id today : Nat) : DB :=
  match get_user_by_telegram_id db telegram_id with
  | none => db
  | some u =>
    if u.last_like_reset_date ≠ today then
      update_users db telegram_id
        (fun v => { v with likes_given_today := 0, last_like_reset_date := today })
    else db

/-- `SELECT 1 FROM likes WHERE from_user_id = ? AND to_user_id = ?`
existence check of `src/ridon.py`. -/
def hasLike (likes : List Like) (a b : Nat) : Bool :=
  likes.any (fun l => l.from_user_id == a && l.to_user_id == b)

/-- `Database.record_profile_view` of `src/ridon.py`: best-effort insert of
a view row. -/
def record_profile_view (db : DB) (viewer_id viewed_user_id : Nat) : DB :=
  { db with profile_views := db.profile_views ++ [⟨viewer_id, viewed_user_id⟩] }

/-- `Database.create_like` of `src/ridon.py`: resolve both users, reset the
daily counter when stale, check the quota (premium users bypass it),
`INSERT OR IGNORE` the like, increment the sender's `likes_given_today` and
the target's `likes_received_total`, check the reverse like, and on
reciprocity flag both directed likes `is_mutual` in place.  Returns the
`(is_mutual, to_user)` pair of the source together with the new state. -/
def create_like (db : DB) (from_user_telegram_id to_user_telegram_id : Nat)
    (today now : Nat) : (Bool × Option User) × DB :=
  match get_user_by_telegram_id db from_user_telegram_id,
        get_user_by_telegram_id db to_user_telegram_id with
  | some fu0, some tu =>
    let db1 := if fu0.last_like_reset_date ≠ today then
        update_users db from_user_telegram_id
          (fun u => { u with likes_given_today := 0, last_like_reset_date := today })
      else db
    let fu := if fu0.last_like_reset_date ≠ today then
        { fu0 with likes_given_today := 0 } else fu0
    if fu.likes_given_today ≥ LIKES_PER_DAY_FREE ∧ fu.is_premium = false then
      ((false, none), db1)
    else
      let db2 := if hasLike db1.likes fu.user_id tu.user_id then db1
        else { db1 with likes := db1.likes ++ [⟨fu.user_id, tu.user_id, false⟩] }
      let db3 := update_users db2 from_user_telegram_id
        (fun u => { u with likes_given_today := u.likes_given_today + 1, updated_at := now })
      let db4 := update_users db3 to_user_telegram_id
        (fun u => { u with likes_received_total := u.likes_received_total + 1, updated_at := now })
      let is_mutual := hasLike db4.likes tu.user_id fu.user_id
      let db5 := if is_mutual then
          { db4 with likes := db4.likes.map (fun l =>
              if (l.from_user_id == fu.user_id && l.to_user_id == tu.user_id) ||
                 (l.from_user_id == tu.user_id && l.to_user_id == fu.user_id)
              then { l with is_mutual := true } else l) }
        else db4
      ((is_mutual, some tu), db5)
  | _, _ => ((false, none), db)

/-- The `WHERE` clause of the candidate query in `Database.get_next_profile`
of `src/ridon.py`: not the viewer, active, not banned, no like from the
viewer. -/
def eligible (db : DB) (current_user_telegram_id : Nat) (viewer : User)
    (u : User) : Bool :=
  u.telegram_id != current_user_telegram_id &&
  u.is_active && !u.is_banned &&
  !(hasLike db.likes viewer.user_id u.user_id)

/-- `Database.get_next_profile` of `src/ridon.py`: filter the candidate set,
pick one row by `ORDER BY RANDOM() LIMIT 1` — modelled by an externally
supplied draw `k` selecting position `k % length` — and record a profile
view for the returned row. -/
def get_next_profile (db : DB) (current_user_telegram_id : Nat) (k : Nat) :
    Option User × DB :=
  match get_user_by_telegram_id db current_user_telegram_id with
  | none => (none, db)
  | some viewer =>
    let elig := db.users.filter (eligible db current_user_telegram_id viewer)
    match elig.get? (k % elig.length) with
    | none => (none, db)
    | some p => (some p, record_profile_view db viewer.user_id p.user_id)

-- The FSM state constants of `class States` in `src/ridon.py`.
namespace States

def REG_NAME_AGE : Nat := 2

def REG_GENDER : Nat := 3

def EDIT_PROFILE : Nat := 7

def EDIT_NAME_AGE : Nat := 8

end States

/-- Helper for Python `text.split()`: walk the character list accumulating
the current token, emitting it at each whitespace run. -/
def splitWsAux : List Char → List Char → List (List Char)
  | [], acc => if acc = [] then [] else [acc.reverse]
  | c :: cs, acc =>
    if c.isWhitespace then
      (if acc = [] then [] else [acc.reverse]) ++ splitWsAux cs []
    else splitWsAux cs (c :: acc)

/-- Python `text.strip().split()`: break on whitespace runs, dropping empty
tokens (leading and trailing whitespace produces no token, so the prior
`.strip()` is absorbed). -/
def tokens (text : String) : List String :=
  (splitWsAux text.data []).map (fun cs => String.mk cs)

/-- Python `int(token)` on a whitespace-free token: an optional sign
followed by decimal digits, `None` (a `ValueError` in the source) on
anything else.  (Python additionally accepts underscore grouping and
non-ASCII digits; no behaviour the spec describes depends on those.) -/
def int_of_string (s : String) : Option Int :=
  match s.data with
  | '-' :: rest =>
    if rest ≠ [] ∧ rest.all Char.isDigit
      then some (-((rest.foldl (fun n c => n * 10 + (c.toNat - 48)) 0 : Nat) : Int))
      else none
  | '+' :: rest =>
    if rest ≠ [] ∧ rest.all Char.isDigit
      then some (((rest.foldl (fun n c => n * 10 + (c.toNat - 48)) 0 : Nat) : Int))
      else none
  | ds =>
    if ds ≠ [] ∧ ds.all Char.isDigit
      then some (((ds.foldl (fun n c => n * 10 + (c.toNat - 48)) 0 : Nat) : Int))
      else none

/-- The per-user registration buffer `context.user_data['registration']`
(the fields the name/age step writes). -/
structure RegistrationData where
  full_name : Option String := none
  age : Option Int := none
deriving Repr, DecidableEq

/-- `handle_registration_name_age` of `src/ridon.py`: split the text, require
at least two tokens, parse the last token as an integer age, require
`18 <= age <= 100`; on any failure re-enter `REG_NAME_AGE` leaving the
buffer alone, otherwise store name and age in the buffer and advance to
`REG_GENDER`. -/
def handle_registration_name_age (text : String) (reg : RegistrationData) :
    Nat × RegistrationData :=
  let parts := tokens text
  if parts.length < 2 then (States.REG_NAME_AGE, reg)
  else
    match parts.getLast? with
    | none => (States.REG_NAME_AGE, reg)
    | some lastTok =>
      match int_of_string lastTok with
      | none => (States.REG_NAME_AGE, reg)
      | some age =>
        if ¬(18 ≤ age ∧ age ≤ 100) then (States.REG_NAME_AGE, reg)
        else
          (States.REG_GENDER,
            { reg with full_name := some (String.intercalate " " parts.dropLast),
                       age := some age })

/-- `handle_edit_name_age_input` of `src/ridon.py`: same parse and range
check; on failure re-enter `EDIT_NAME_AGE` with the store untouched, on
success persist name and age through `Database.update_user` (which also
stamps `updated_at`) and return to `EDIT_PROFILE`. -/
def handle_edit_name_age_input (text : String) (db : DB) (telegram_id now : Nat) :
    Nat × DB :=
  let parts := tokens text
  if parts.length < 2 then (States.EDIT_NAME_AGE, db)
  else
    match parts.getLast? with
    | none => (States.EDIT_NAME_AGE, db)
    | some lastTok =>
      match int_of_string lastTok with
      | none => (States.EDIT_NAME_AGE, db)
      | some age =>
        if ¬(18 ≤ age ∧ age ≤ 100) then (States.EDIT_NAME_AGE, db)
        else
          (States.EDIT_PROFILE,
            update_users db telegram_id (fun u =>
              { u with full_name := String.intercalate " " (tokens text).dropLast,
                       age := age, updated_at := now }))

end Ridon

namespace RRR

/-- A concrete two-user state for exercising `RRR.create_like`: both users
registered, active, under quota, with no likes and no matches. -/
def dbC1 : DB :=
  { users := [
      { id := 1, telegram_id := 11, full_name := "A", age := 25, gender := "male",
        search_gender := "any", search_age_min := 18, search_age_max := 45,
        likes_today := 0, likes_reset_date := 0, is_active := true,
        is_premium := false, is_banned := false, last_seen := 5 },
      { id := 2, telegram_id := 22, full_name := "B", age := 23, gender := "female",
        search_gender := "any", search_age_min := 18, search_age_max := 45,
        likes_today := 0, likes_reset_date := 0, is_active := true,
        is_premium := false, is_banned := false, last_seen := 9 } ],
    likes := [], match_rows := [], next_match_id := 0 }

/-- A state with one user and four match rows: one live, one expired but
still flagged active, one closed, one involving other users. -/
def dbC7 : DB :=
  { users := [
      { id := 1, telegram_id := 11, full_name := "A", age := 25, gender := "male",
        search_gender := "any", search_age_min := 18, search_age_max := 45,
        likes_today := 0, likes_reset_date := 0, is_active := true,
        is_premium := false, is_banned := false, last_seen := 5 } ],
    likes := [],
    match_rows := [
      ⟨100, 1, 2, 60, true⟩,
      ⟨101, 1, 3, 40, true⟩,
      ⟨102, 1, 4, 60, false⟩,
      ⟨103, 5, 6, 60, true⟩ ],
    next_match_id := 104 }

/-- The viewer row shared by `dbC5a` and `dbC5b`. -/
def vC5 : User :=
  { id := 1, telegram_id := 11, full_name := "V", age := 30, gender := "male",
    search_gender := "any", search_age_min := 18, search_age_max := 45,
    likes_today := 0, likes_reset_date := 0, is_active := true,
    is_premium := false, is_banned := false, last_seen := 1 }

/-- A viewer with two eligible candidates; candidate 22 was seen most
recently. -/
def dbC5a : DB :=
  { users := [ vC5,
      { id := 2, telegram_id := 22, full_name := "P", age := 23, gender := "female",
        search_gender := "any", search_age_min := 18, search_age_max := 45,
        likes_today := 0, likes_reset_date := 0, is_active := true,
        is_premium := false, is_banned := false, last_seen := 9 },
      { id := 3, telegram_id := 33, full_name := "Q", age := 25, gender := "female",
        search_gender := "any", search_age_min := 18, search_age_max := 45,
        likes_today := 0, likes_reset_date := 0, is_active := true,
        is_premium := false, is_banned := false, last_seen := 5 } ],
    likes := [], match_rows := [], next_match_id := 0 }

/-- The same state with the two candidates' `last_seen` values swapped. -/
def dbC5b : DB :=
  { users := [ vC5,
      { id := 2, telegram_id := 22, full_name := "P", age := 23, gender := "female",
        search_gender := "any", search_age_min := 18, search_age_max := 45,
        likes_today := 0, likes_reset_date := 0, is_active := true,
        is_premium := false, is_banned := false, last_seen := 5 },
      { id := 3, telegram_id := 33, full_name := "Q", age := 25, gender := "female",
        search_gender := "any", search_age_min := 18, search_age_max := 45,
        likes_today := 0, likes_reset_date := 0, is_active := true,
        is_premium := false, is_banned := false, last_seen := 9 } ],
    likes := [], match_rows := [], next_match_id := 0 }

/-- Non-premium profile of `src/rrr.py` with its daily counter at 9999. -/
def uC10_free : User :=
  { id := 1, telegram_id := 1, full_name := "F", age := 30, gender := "male",
    search_gender := "any", search_age_min := 18, search_age_max := 45,
    likes_today := 9999, likes_reset_date := 0, is_active := true,
    is_premium := false, is_banned := false, last_seen := 0 }

/-- The same profile with premium enabled (and a fresh identity). -/
def uC10_prem : User :=
  { id := 2, telegram_id := 2, full_name := "P", age := 30, gender := "male",
    search_gender := "any", search_age_min := 18, search_age_max := 45,
    likes_today := 9999, likes_reset_date := 0, is_active := true,
    is_premium := true, is_banned := false, last_seen := 0 }

/-- A like target. -/
def uC10_target : User :=
  { id := 3, telegram_id := 3, full_name := "T", age := 30, gender := "female",
    search_gender := "any", search_age_min := 18, search_age_max := 45,
    likes_today := 0, likes_reset_date := 0, is_active := true,
    is_premium := false, is_banned := false, last_seen := 0 }

def dbC10 : DB :=
  { users := [uC10_free, uC10_prem, uC10_target],
    likes := [], match_rows := [], next_match_id := 0 }

end RRR

namespace Ridon

/-- A viewer and one eligible candidate in the `src/ridon.py` state. -/
def dbC5r : DB :=
  { users := [
      { user_id := 1, telegram_id := 11, full_name := "V", age := 30,
        is_active := true, is_banned := false, is_premium := false,
        likes_given_today := 0, likes_received_total := 0,
        last_like_reset_date := 0, updated_at := 0 },
      { user_id := 2, telegram_id := 22, full_name := "C", age := 25,
        is_active := true, is_banned := false, is_premium := false,
        likes_given_today := 0, likes_received_total := 0,
        last_like_reset_date := 0, updated_at := 0 } ],
    likes := [], reports := [], profile_views := [] }

/-- A state with a non-premium sender already at the daily limit. -/
def dbC2 : DB :=
  { users := [
      { user_id := 1, telegram_id := 1, full_name := "C", age := 30,
        is_active := true, is_banned := false, is_premium := false,
        likes_given_today := 20, likes_received_total := 0,
        last_like_reset_date := 7, updated_at := 0 },
      { user_id := 2, telegram_id := 2, full_name := "T", age := 25,
        is_active := true, is_banned := false, is_premium := false,
        likes_given_today := 0, likes_received_total := 0,
        last_like_reset_date := 7, updated_at := 0 } ],
    likes := [], reports := [], profile_views := [] }

/-- Two registered users with empty ledgers and current reset dates. -/
def dbC3 : DB :=
  { users := [
      { user_id := 1, telegram_id := 1, full_name := "A", age := 30,
        is_active := true, is_banned := false, is_premium := false,
        likes_given_today := 0, likes_received_total := 0,
        last_like_reset_date := 0, updated_at := 0 },
      { user_id := 2, telegram_id := 2, full_name := "B", age := 25,
        is_active := true, is_banned := false, is_premium := false,
        likes_given_today := 0, likes_received_total := 0,
        last_like_reset_date := 0, updated_at := 0 } ],
    likes := [], reports := [], profile_views := [] }

/-- A state in which user 1 (telegram id 11) is referenced by a like, a
report and a profile view from user 2. -/
def dbC9 : DB :=
  { users := [
      { user_id := 1, telegram_id := 11, full_name := "A", age := 30,
        is_active := true, is_banned := false, is_premium := false,
        likes_given_today := 0, likes_received_total := 1,
        last_like_reset_date := 0, updated_at := 0 },
      { user_id := 2, telegram_id := 22, full_name := "B", age := 25,
        is_active := true, is_banned := false, is_premium := false,
        likes_given_today := 1, likes_received_total := 0,
        last_like_reset_date := 0, updated_at := 0 } ],
    likes := [⟨2, 1, false⟩],
    reports := [⟨2, 1, "spam", "pending"⟩],
    profile_views := [⟨2, 1⟩] }

end Ridon

namespace RRR

theorem update_users_likes (db : DB) (tid : Nat) (f : User → User) :
    (update_users db tid f).likes = db.likes := rfl

theorem update_users_match_rows (db : DB) (tid : Nat) (f : User → User) :
    (update_users db tid f).match_rows = db.match_rows := rfl

theorem update_users_next_match_id (db : DB) (tid : Nat) (f : User → User) :
    (update_users db tid f).next_match_id = db.next_match_id := rfl

theorem find?_update_self (l : List User) (tid : Nat) (f : User → User)
    (hf : ∀ u, (f u).telegram_id = u.telegram_id) :
    (l.map (fun u => if u.telegram_id == tid then f u else u)).find?
        (fun u => u.telegram_id == tid)
      = (l.find? (fun u => u.telegram_id == tid)).map f := by
  induction l with
  | nil => rfl
  | cons u l ih =>
    rw [List.map_cons]
    cases hbe : (u.telegram_id == tid) with
    | true =>
      have hfu : ((f u).telegram_id == tid) = true := by rw [hf]; exact hbe
      rw [show (if true = true then f u else u) = f u from rfl,
        List.find?_cons, List.find?_cons, hfu, hbe]
      rfl
    | false =>
      rw [show (if false = true then f u else u) = u from rfl,
        List.find?_cons, List.find?_cons, hbe]
      exact ih

theorem find?_update_other (l : List User) (tid tid' : Nat) (f : User → User)
    (hf : ∀ u, (f u).telegram_id = u.telegram_id) (h : tid' ≠ tid) :
    (l.map (fun u => if u.telegram_id == tid then f u else u)).find?
        (fun u => u.telegram_id == tid')
      = l.find? (fun u => u.telegram_id == tid') := by
  induction l with
  | nil => rfl
  | cons u l ih =>
    rw [List.map_cons]
    cases hbe : (u.telegram_id == tid) with
    | true =>
      have hut : u.telegram_id = tid := by simpa using hbe
      have h1 : ((f u).telegram_id == tid') = false := by
        simp [hf, hut, Ne.symm h]
      have h2 : (u.telegram_id == tid') = false := by simp [hut, Ne.symm h]
      rw [show (if true = true then f u else u) = f u from rfl,
        List.find?_cons, List.find?_cons, h1, h2]
      exact ih
    | false =>
      rw [show (if false = true then f u else u) = u from rfl,
        List.find?_cons, List.find?_cons]
      cases hv : (u.telegram_id == tid') with
      | true => rfl
      | false => exact ih

theorem get_user_update_self (db : DB) (tid : Nat) (f : User → User)
    (hf : ∀ u, (f u).telegram_id = u.telegram_id) :
    get_user_by_telegram_id (update_users db tid f) tid
      = (get_user_by_telegram_id db tid).map f :=
  find?_update_self db.users tid f hf

theorem get_user_update_other (db : DB) (tid tid' : Nat) (f : User → User)
    (hf : ∀ u, (f u).telegram_id = u.telegram_id) (h : tid' ≠ tid) :
    get_user_by_telegram_id (update_users db tid f) tid'
      = get_user_by_telegram_id db tid' :=
  find?_update_other db.users tid tid' f hf h

theorem hasLike_append (l : List Like) (e : Like) (a b : Nat) :
    hasLike (l ++ [e]) a b
      = (hasLike l a b || (e.from_user_id == a && e.to_user_id == b)) := by
  simp [hasLike]

/-- Characterization of a successful, non-reciprocated `create_like` call in
`src/rrr.py`: the like edge is appended, the matches table and the fresh-id
counter are untouched, other users' rows are untouched, and the sender's
row keeps its internal id. -/
theorem create_like_sent (db : DB) (aTid bTid today now : Nat) (fu tu : User)
    (hA : get_user_by_telegram_id db aTid = some fu)
    (hB : get_user_by_telegram_id db bTid = some tu)
    (hid : fu.id ≠ tu.id)
    (hAB : hasLike db.likes fu.id tu.id = false)
    (hBA : hasLike db.likes tu.id fu.id = false)
    (hq : (if fu.likes_reset_date = today then fu.likes_today else 0) < likes_limit fu) :
    ∃ db', create_like db aTid bTid today now = (false, db') ∧
      db'.likes = db.likes ++ [⟨fu.id, tu.id⟩] ∧
      db'.match_rows = db.match_rows ∧
      db'.next_match_id = db.next_match_id ∧
      (∀ tid', tid' ≠ aTid →
        get_user_by_telegram_id db' tid' = get_user_by_telegram_id db tid') ∧
      (∃ fu2, get_user_by_telegram_id db' aTid = some fu2 ∧ fu2.id = fu.id) := by
  have hmut : hasLike (db.likes ++ [⟨fu.id, tu.id⟩]) tu.id fu.id = false := by
    rw [hasLike_append, hBA]
    simp [Ne.symm hid]
  by_cases hst : fu.likes_reset_date = today
  · rw [if_pos hst] at hq
    have hq1 : ¬ (fu.likes_today ≥ likes_limit fu) := by omega
    refine ⟨update_users { db with likes := db.likes ++ [⟨fu.id, tu.id⟩] } aTid
        (fun u => { u with likes_today := u.likes_today + 1 }), ?_, rfl, rfl, rfl, ?_, ?_⟩
    · simp [create_like, hA, hB, hst, hq1, hAB, hmut, update_users_likes]
    · intro tid' htid'
      simp only [get_user_by_telegram_id, update_users]
      exact find?_update_other db.users aTid tid'
        (fun u => { u with likes_today := u.likes_today + 1 }) (fun u => rfl) htid'
    · simp only [get_user_by_telegram_id, update_users]
      rw [find?_update_self db.users aTid
        (fun u => { u with likes_today := u.likes_today + 1 }) (fun u => rfl)]
      rw [show db.users.find? (fun u => u.telegram_id == aTid) = some fu from hA]
      exact ⟨_, rfl, rfl⟩
  · rw [if_neg hst] at hq
    have hlim : likes_limit { fu with likes_today := 0 } = likes_limit fu := rfl
    have hq2 : ¬ ((0 : Nat) ≥ likes_limit fu) := by omega
    refine ⟨update_users
        { update_users db aTid
            (fun u => { u with likes_today := 0, likes_reset_date := today }) with
          likes := db.likes ++ [⟨fu.id, tu.id⟩] } aTid
        (fun u => { u with likes_today := u.likes_today + 1 }), ?_, rfl, rfl, rfl, ?_, ?_⟩
    · simp [create_like, hA, hB, hst, hlim, hq2, hAB, hmut, update_users_likes]
    · intro tid' htid'
      simp only [get_user_by_telegram_id, update_users]
      rw [find?_update_other _ aTid tid'
        (fun u => { u with likes_today := u.likes_today + 1 }) (fun u => rfl) htid']
      exact find?_update_other db.users aTid tid'
        (fun u => { u with likes_today := 0, likes_reset_date := today }) (fun u => rfl) htid'
    · simp only [get_user_by_telegram_id, update_users]
      rw [find?_update_self _ aTid
        (fun u => { u with likes_today := u.likes_today + 1 }) (fun u => rfl)]
      rw [find?_update_self db.users aTid
        (fun u => { u with likes_today := 0, likes_reset_date := today }) (fun u => rfl)]
      rw [show db.users.find? (fun u => u.telegram_id == aTid) = some fu from hA]
      exact ⟨_, rfl, rfl⟩

/-- Characterization of a reciprocating `create_like` call in `src/rrr.py`:
when the reverse like is already present (and the forward one is not), the
call reports a mutual like, appends exactly one match row whose expiry is
`CHAT_DURATION_HOURS` past `now`, and bumps the fresh-id counter. -/
theorem create_like_mutual (db : DB) (bTid aTid today now : Nat) (fu tu : User)
    (hB : get_user_by_telegram_id db bTid = some fu)
    (hA : get_user_by_telegram_id db aTid = some tu)
    (_hid : fu.id ≠ tu.id)
    (hfwd : hasLike db.likes fu.id tu.id = false)
    (hrev : hasLike db.likes tu.id fu.id = true)
    (hq : (if fu.likes_reset_date = today then fu.likes_today else 0) < likes_limit fu) :
    (create_like db bTid aTid today now).1 = true ∧
    (create_like db bTid aTid today now).2.match_rows
      = db.match_rows ++
          [⟨db.next_match_id, fu.id, tu.id, now + CHAT_DURATION_HOURS, true⟩] ∧
    (create_like db bTid aTid today now).2.next_match_id = db.next_match_id + 1 := by
  have hmut : hasLike (db.likes ++ [⟨fu.id, tu.id⟩]) tu.id fu.id = true := by
    rw [hasLike_append, hrev]
    simp
  by_cases hst : fu.likes_reset_date = today
  · rw [if_pos hst] at hq
    have hq1 : ¬ (fu.likes_today ≥ likes_limit fu) := by omega
    refine ⟨?_, ?_, ?_⟩ <;>
      simp [create_like, hB, hA, hst, hq1, hfwd, hmut,
        update_users_likes, update_users_match_rows, update_users_next_match_id]
  · rw [if_neg hst] at hq
    have hlim : likes_limit { fu with likes_today := 0 } = likes_limit fu := rfl
    have hq2 : ¬ ((0 : Nat) ≥ likes_limit fu) := by omega
    refine ⟨?_, ?_, ?_⟩ <;>
      simp [create_like, hB, hA, hst, hlim, hq2, hfwd, hmut,
        update_users_likes, update_users_match_rows, update_users_next_match_id]

/-- C1: for registered, distinct profiles A and B (each under its quota and
with no pre-existing like between them), `create_like(A,B)` followed by
`create_like(B,A)` reports non-mutual then mutual, and appends exactly one
match row between A and B — never two — with `is_active = true` and an
expiry equal to its creation instant plus the fixed 24-hour conversation
duration (`CHAT_DURATION_HOURS`). -/
theorem C1_mutual_like_single_match (db : DB) (aTid bTid today now1 now2 : Nat)
    (fu tu : User)
    (hA : get_user_by_telegram_id db aTid = some fu)
    (hB : get_user_by_telegram_id db bTid = some tu)
    (htid : aTid ≠ bTid) (hid : fu.id ≠ tu.id)
    (hAB : hasLike db.likes fu.id tu.id = false)
    (hBA : hasLike db.likes tu.id fu.id = false)
    (hqA : (if fu.likes_reset_date = today then fu.likes_today else 0) < likes_limit fu)
    (hqB : (if tu.likes_reset_date = today then tu.likes_today else 0) < likes_limit tu) :
    (create_like db aTid bTid today now1).1 = false ∧
    (create_like (create_like db aTid bTid today now1).2 bTid aTid today now2).1 = true ∧
    (create_like (create_like db aTid bTid today now1).2 bTid aTid today now2).2.match_rows
      = db.match_rows ++
          [⟨db.next_match_id, tu.id, fu.id, now2 + CHAT_DURATION_HOURS, true⟩] ∧
    ((create_like (create_like db aTid bTid today now1).2 bTid aTid today now2).2.match_rows.countP
        (fun m => (m.user1_id == fu.id && m.user2_id == tu.id) ||
                  (m.user1_id == tu.id && m.user2_id == fu.id)))
      = (db.match_rows.countP
          (fun m => (m.user1_id == fu.id && m.user2_id == tu.id) ||
                    (m.user1_id == tu.id && m.user2_id == fu.id))) + 1 := by
  obtain ⟨db1, e1, hl1, hm1, hn1, hother1, fu2, hfu2, hfu2id⟩ :=
    create_like_sent db aTid bTid today now1 fu tu hA hB hid hAB hBA hqA
  have hB1 : get_user_by_telegram_id db1 bTid = some tu :=
    (hother1 bTid (Ne.symm htid)).trans hB
  have hid2 : tu.id ≠ fu2.id := by rw [hfu2id]; exact Ne.symm hid
  have hfwd2 : hasLike db1.likes tu.id fu2.id = false := by
    rw [hfu2id, hl1, hasLike_append, hBA]
    simp [hid]
  have hrev2 : hasLike db1.likes fu2.id tu.id = true := by
    rw [hfu2id, hl1, hasLike_append]
    simp
  obtain ⟨hm, hmr, hni⟩ :=
    create_like_mutual db1 bTid aTid today now2 tu fu2 hB1 hfu2 hid2 hfwd2 hrev2 hqB
  rw [e1]
  refine ⟨rfl, hm, ?_, ?_⟩
  · rw [hmr, hm1, hn1, hfu2id]
  · rw [hmr, hm1, hn1, hfu2id, List.countP_append]
    simp [List.countP_cons]


/-- Witness for C1 at the concrete state `dbC1`: user 11 likes user 22, then
user 22 likes user 11, and exactly one active 24-hour match appears. -/
theorem C1_mutual_like_single_match_witness :
    (create_like dbC1 11 22 0 100).1 = false ∧
    (create_like (create_like dbC1 11 22 0 100).2 22 11 0 101).1 = true ∧
    (create_like (create_like dbC1 11 22 0 100).2 22 11 0 101).2.match_rows
      = dbC1.match_rows ++ [⟨dbC1.next_match_id, 2, 1, 101 + CHAT_DURATION_HOURS, true⟩] ∧
    ((create_like (create_like dbC1 11 22 0 100).2 22 11 0 101).2.match_rows.countP
        (fun m => (m.user1_id == 1 && m.user2_id == 2) ||
                  (m.user1_id == 2 && m.user2_id == 1)))
      = (dbC1.match_rows.countP
          (fun m => (m.user1_id == 1 && m.user2_id == 2) ||
                    (m.user1_id == 2 && m.user2_id == 1))) + 1 :=
  C1_mutual_like_single_match dbC1 11 22 0 100 101
    { id := 1, telegram_id := 11, full_name := "A", age := 25, gender := "male",
      search_gender := "any", search_age_min := 18, search_age_max := 45,
      likes_today := 0, likes_reset_date := 0, is_active := true,
      is_premium := false, is_banned := false, last_seen := 5 }
    { id := 2, telegram_id := 22, full_name := "B", age := 23, gender := "female",
      search_gender := "any", search_age_min := 18, search_age_max := 45,
      likes_today := 0, likes_reset_date := 0, is_active := true,
      is_premium := false, is_banned := false, last_seen := 9 }
    (by decide) (by decide) (by decide) (by decide) (by decide) (by decide)
    (by decide) (by decide)

theorem pick_latest_spec (l : List User) :
    ∀ acc u,
      l.foldl (fun acc u => match acc with
        | none => some u
        | some b => if b.last_seen < u.last_seen then some u else some b) acc = some u →
      (u ∈ l ∨ acc = some u) ∧
      (∀ q, q ∈ l → q.last_seen ≤ u.last_seen) ∧
      (∀ b, acc = some b → b.last_seen ≤ u.last_seen) := by
  induction l with
  | nil =>
    intro acc u h
    rw [List.foldl_nil] at h
    refine ⟨Or.inr h, ?_, ?_⟩
    · intro q hq
      cases hq
    · intro b hb
      rw [hb] at h
      injection h with h
      rw [h]
  | cons v l ih =>
    intro acc u h
    rw [List.foldl_cons] at h
    obtain ⟨hmem, hmax, hacc⟩ := ih _ u h
    have hv : v.last_seen ≤ u.last_seen := by
      cases acc with
      | none => exact hacc v rfl
      | some b =>
        by_cases hb : b.last_seen < v.last_seen
        · exact hacc v (by simp [hb])
        · have := hacc b (by simp [hb])
          omega
    refine ⟨?_, ?_, ?_⟩
    · rcases hmem with hm | he
      · exact Or.inl (List.mem_cons_of_mem _ hm)
      · cases acc with
        | none =>
          simp only [Option.some.injEq] at he
          exact Or.inl (by rw [← he]; exact List.mem_cons_self _ _)
        | some b =>
          by_cases hb : b.last_seen < v.last_seen
          · simp only [hb, if_true] at he
            simp only [Option.some.injEq] at he
            exact Or.inl (by rw [← he]; exact List.mem_cons_self _ _)
          · simp only [hb, if_false] at he
            exact Or.inr he
    · intro q hq
      rcases List.mem_cons.mp hq with hq' | hq'
      · rw [hq']; exact hv
      · exact hmax q hq'
    · intro b hb
      cases acc with
      | none => cases hb
      | some b0 =>
        injection hb with hbe
        by_cases hb2 : b0.last_seen < v.last_seen
        · have h1 := hacc v (by simp [hb2])
          rw [← hbe]
          omega
        · have h2 := hacc b0 (by simp [hb2])
          rw [← hbe]
          exact h2

theorem pick_latest_mem (l : List User) (u : User) (h : pick_latest l = some u) :
    u ∈ l := by
  rcases (pick_latest_spec l none u h).1 with hm | he
  · exact hm
  · cases he

theorem pick_latest_max (l : List User) (u q : User) (h : pick_latest l = some u)
    (hq : q ∈ l) : q.last_seen ≤ u.last_seen :=
  (pick_latest_spec l none u h).2.1 q hq

/-- C4: for every registered viewer, `get_next_profile` never returns the
viewer itself, an inactive or banned profile, a profile already liked by
the viewer, or a profile in a currently active match with the viewer; and
when the candidate filter is empty it returns no profile. -/
theorem C4_next_candidate_exclusions (db : DB) (tid : Nat) (viewer : User)
    (hv : get_user_by_telegram_id db tid = some viewer) :
    (db.users.filter (eligible db viewer tid) = [] → get_next_profile db tid = none) ∧
    (∀ p, get_next_profile db tid = some p →
      p.telegram_id ≠ tid ∧ p.is_active = true ∧ p.is_banned = false ∧
      hasLike db.likes viewer.id p.id = false ∧
      (∀ m, m ∈ db.match_rows → m.is_active = true →
        ¬ ((m.user1_id = viewer.id ∧ m.user2_id = p.id) ∨
           (m.user1_id = p.id ∧ m.user2_id = viewer.id)))) := by
  constructor
  · intro hemp
    unfold get_next_profile
    rw [hv]
    show pick_latest (db.users.filter (eligible db viewer tid)) = none
    rw [hemp]
    rfl
  · intro p hp
    unfold get_next_profile at hp
    rw [hv] at hp
    have hp2 : pick_latest (db.users.filter (eligible db viewer tid)) = some p := hp
    have hmem := pick_latest_mem _ p hp2
    rw [List.mem_filter] at hmem
    obtain ⟨-, helig⟩ := hmem
    unfold eligible at helig
    simp only [Bool.and_eq_true, bne_iff_ne, ne_eq, Bool.not_eq_true',
      decide_eq_true_eq, Bool.or_eq_true, beq_iff_eq] at helig
    obtain ⟨⟨⟨⟨⟨⟨hne, hact⟩, hban⟩, -⟩, hlike⟩, hmatch⟩, -⟩ := helig
    refine ⟨hne, hact, hban, hlike, ?_⟩
    intro m hm hmact hbad
    rw [List.any_eq_false] at hmatch
    have := hmatch m hm
    rcases hbad with ⟨h1, h2⟩ | ⟨h1, h2⟩ <;>
      simp [h1, h2, hmact] at this

/-- Witness for C4 at `dbC1`: viewer 11 receives candidate 22, and the
candidate indeed is not the viewer, is active, is not banned, and was not
previously liked by the viewer. -/
theorem C4_next_candidate_exclusions_witness :
    (22 : Nat) ≠ 11 ∧ true = true ∧ false = false ∧
    hasLike dbC1.likes 1 2 = false :=
  have h := (C4_next_candidate_exclusions dbC1 11
    { id := 1, telegram_id := 11, full_name := "A", age := 25, gender := "male",
      search_gender := "any", search_age_min := 18, search_age_max := 45,
      likes_today := 0, likes_reset_date := 0, is_active := true,
      is_premium := false, is_banned := false, last_seen := 5 }
    (by decide)).2
    { id := 2, telegram_id := 22, full_name := "B", age := 23, gender := "female",
      search_gender := "any", search_age_min := 18, search_age_max := 45,
      likes_today := 0, likes_reset_date := 0, is_active := true,
      is_premium := false, is_banned := false, last_seen := 9 }
    (by decide)
  ⟨h.1, h.2.1, h.2.2.1, h.2.2.2.1⟩

/-- C7: `get_active_matches` returns exactly the match rows that involve the
user, are flagged active, and whose expiry lies strictly in the future; a
row past its expiry is excluded even while its active flag is still set,
and the read leaves the state unchanged. -/
theorem C7_active_matches_spec (db : DB) (tid now : Nat) (u : User)
    (hu : get_user_by_telegram_id db tid = some u) :
    (∀ m, m ∈ (get_active_matches db tid now).1 ↔
      (m ∈ db.match_rows ∧ (m.user1_id = u.id ∨ m.user2_id = u.id) ∧
       m.is_active = true ∧ now < m.chat_expires_at)) ∧
    (get_active_matches db tid now).2 = db := by
  have e : get_active_matches db tid now
      = (db.match_rows.filter (fun m =>
          (m.user1_id == u.id || m.user2_id == u.id) && m.is_active &&
          decide (now < m.chat_expires_at)), db) := by
    unfold get_active_matches
    rw [hu]
  rw [e]
  refine ⟨?_, rfl⟩
  intro m
  rw [List.mem_filter]
  simp only [Bool.and_eq_true, Bool.or_eq_true, beq_iff_eq, decide_eq_true_eq,
    and_assoc]


/-- Witness for C7 at `dbC7` with `now = 50`: the membership rule holds for
the row that expired at 40 while still flagged active, and the read leaves
the state unchanged. -/
theorem C7_active_matches_spec_witness :
    ((⟨101, 1, 3, 40, true⟩ : MatchRow) ∈ (get_active_matches dbC7 11 50).1 ↔
      ((⟨101, 1, 3, 40, true⟩ : MatchRow) ∈ dbC7.match_rows ∧
       ((⟨101, 1, 3, 40, true⟩ : MatchRow).user1_id = 1 ∨
        (⟨101, 1, 3, 40, true⟩ : MatchRow).user2_id = 1) ∧
       (⟨101, 1, 3, 40, true⟩ : MatchRow).is_active = true ∧
       50 < (⟨101, 1, 3, 40, true⟩ : MatchRow).chat_expires_at)) ∧
    (get_active_matches dbC7 11 50).2 = dbC7 :=
  have h := C7_active_matches_spec dbC7 11 50
    { id := 1, telegram_id := 11, full_name := "A", age := 25, gender := "male",
      search_gender := "any", search_age_min := 18, search_age_max := 45,
      likes_today := 0, likes_reset_date := 0, is_active := true,
      is_premium := false, is_banned := false, last_seen := 5 }
    (by decide)
  ⟨h.1 ⟨101, 1, 3, 40, true⟩, h.2⟩




/-- C5 counterexample: in `src/rrr.py` the candidate query orders by
`last_seen DESC` and takes the first row.  In `dbC5a` both candidates 22
and 33 are eligible, yet the selection always returns 22 (so 33 can never
be returned there), and swapping only the two `last_seen` values (`dbC5b`)
flips the result: the choice is deterministic and depends on recency
order, not uniform random selection. -/
theorem C5_uniform_selection_counterexample :
    (dbC5a.users.filter (eligible dbC5a vC5 11)).map (fun u => u.telegram_id)
      = [22, 33] ∧
    (dbC5b.users.filter (eligible dbC5b vC5 11)).map (fun u => u.telegram_id)
      = [22, 33] ∧
    (get_next_profile dbC5a 11).map (fun u => u.telegram_id) = some 22 ∧
    (get_next_profile dbC5b 11).map (fun u => u.telegram_id) = some 33 := by
  decide





/-- C10 (the failing input in `src/rrr.py`): with the daily counter at 9999
a non-premium profile may still like — its limit is `LIKES_PER_DAY_FREE =
1000000` — while an otherwise identical premium profile is refused, because
`create_like` hard-codes the premium limit to 9999; the premium call leaves
the state unchanged.  Enabling premium therefore strictly decreases the
permitted daily likes, although the bot advertises premium as unlimited. -/
theorem C10_premium_limit_below_free_limit :
    likes_limit uC10_free = LIKES_PER_DAY_FREE ∧
    likes_limit uC10_prem = 9999 ∧
    9999 < LIKES_PER_DAY_FREE ∧
    (create_like dbC10 1 3 0 0).1 = false ∧
    (create_like dbC10 1 3 0 0).2.likes = [⟨1, 3⟩] ∧
    create_like dbC10 2 3 0 0 = (false, dbC10) := by
  decide

end RRR

/-- C5 (amended): candidate selection differs between the two variants.  In
`src/ridon.py` the candidate is drawn by `ORDER BY RANDOM() LIMIT 1` —
modelled by the draw `k` — so every profile in the candidate filter is
returned for some draw; in `src/rrr.py` selection is deterministic: the
returned candidate has the greatest `last_seen` among the filtered rows,
so the choice depends on recency order. -/
theorem C5_candidate_selection_policy :
    (∀ (db : Ridon.DB) (tid : Nat) (viewer p : Ridon.User),
      Ridon.get_user_by_telegram_id db tid = some viewer →
      p ∈ db.users.filter (Ridon.eligible db tid viewer) →
      ∃ k, (Ridon.get_next_profile db tid k).1 = some p) ∧
    (∀ (db : RRR.DB) (tid : Nat) (viewer p q : RRR.User),
      RRR.get_user_by_telegram_id db tid = some viewer →
      RRR.get_next_profile db tid = some p →
      q ∈ db.users.filter (RRR.eligible db viewer tid) →
      q.last_seen ≤ p.last_seen) := by
  constructor
  · intro db tid viewer p hv hp
    obtain ⟨i, hi⟩ := List.mem_iff_get?.mp hp
    have hlen : i < (db.users.filter (Ridon.eligible db tid viewer)).length := by
      obtain ⟨hlt, -⟩ := List.get?_eq_some.mp hi
      exact hlt
    refine ⟨i, ?_⟩
    simp only [Ridon.get_next_profile, hv]
    rw [Nat.mod_eq_of_lt hlen, hi]
  · intro db tid viewer p q hv hp hq
    unfold RRR.get_next_profile at hp
    rw [hv] at hp
    have hp2 : RRR.pick_latest (db.users.filter (RRR.eligible db viewer tid))
        = some p := hp
    exact RRR.pick_latest_max _ p q hp2 hq

namespace Ridon


end Ridon

/-- Witness for the amended C5: in `dbC5r` some draw returns candidate 22,
and in `dbC5a` the non-returned eligible candidate indeed has the smaller
`last_seen`. -/
theorem C5_candidate_selection_policy_witness :
    (∃ k, (Ridon.get_next_profile Ridon.dbC5r 11 k).1 = some
      { user_id := 2, telegram_id := 22, full_name := "C", age := 25,
        is_active := true, is_banned := false, is_premium := false,
        likes_given_today := 0, likes_received_total := 0,
        last_like_reset_date := 0, updated_at := 0 }) ∧
    ((5 : Nat) ≤ 9) :=
  ⟨C5_candidate_selection_policy.1 Ridon.dbC5r 11
      { user_id := 1, telegram_id := 11, full_name := "V", age := 30,
        is_active := true, is_banned := false, is_premium := false,
        likes_given_today := 0, likes_received_total := 0,
        last_like_reset_date := 0, updated_at := 0 }
      { user_id := 2, telegram_id := 22, full_name := "C", age := 25,
        is_active := true, is_banned := false, is_premium := false,
        likes_given_today := 0, likes_received_total := 0,
        last_like_reset_date := 0, updated_at := 0 }
      (by decide) (by decide),
   C5_candidate_selection_policy.2 RRR.dbC5a 11 RRR.vC5
      { id := 2, telegram_id := 22, full_name := "P", age := 23, gender := "female",
        search_gender := "any", search_age_min := 18, search_age_max := 45,
        likes_today := 0, likes_reset_date := 0, is_active := true,
        is_premium := false, is_banned := false, last_seen := 9 }
      { id := 3, telegram_id := 33, full_name := "Q", age := 25, gender := "female",
        search_gender := "any", search_age_min := 18, search_age_max := 45,
        likes_today := 0, likes_reset_date := 0, is_active := true,
        is_premium := false, is_banned := false, last_seen := 5 }
      (by decide) (by decide) (by decide)⟩

namespace Ridon

theorem ridon_update_users_likes (db : DB) (tid : Nat) (f : User → User) :
    (update_users db tid f).likes = db.likes := rfl

theorem ridon_update_users_reports (db : DB) (tid : Nat) (f : User → User) :
    (update_users db tid f).reports = db.reports := rfl

theorem ridon_update_users_profile_views (db : DB) (tid : Nat) (f : User → User) :
    (update_users db tid f).profile_views = db.profile_views := rfl

theorem ridon_find_update_self (l : List User) (tid : Nat) (f : User → User)
    (hf : ∀ u, (f u).telegram_id = u.telegram_id) :
    (l.map (fun u => if u.telegram_id == tid then f u else u)).find?
        (fun u => u.telegram_id == tid)
      = (l.find? (fun u => u.telegram_id == tid)).map f := by
  induction l with
  | nil => rfl
  | cons u l ih =>
    rw [List.map_cons]
    cases hbe : (u.telegram_id == tid) with
    | true =>
      have hfu : ((f u).telegram_id == tid) = true := by rw [hf]; exact hbe
      rw [show (if true = true then f u else u) = f u from rfl,
        List.find?_cons, List.find?_cons, hfu, hbe]
      rfl
    | false =>
      rw [show (if false = true then f u else u) = u from rfl,
        List.find?_cons, List.find?_cons, hbe]
      exact ih

theorem ridon_find_update_other (l : List User) (tid tid' : Nat) (f : User → User)
    (hf : ∀ u, (f u).telegram_id = u.telegram_id) (h : tid' ≠ tid) :
    (l.map (fun u => if u.telegram_id == tid then f u else u)).find?
        (fun u => u.telegram_id == tid')
      = l.find? (fun u => u.telegram_id == tid') := by
  induction l with
  | nil => rfl
  | cons u l ih =>
    rw [List.map_cons]
    cases hbe : (u.telegram_id == tid) with
    | true =>
      have hut : u.telegram_id = tid := by simpa using hbe
      have h1 : ((f u).telegram_id == tid') = false := by
        simp [hf, hut, Ne.symm h]
      have h2 : (u.telegram_id == tid') = false := by simp [hut, Ne.symm h]
      rw [show (if true = true then f u else u) = f u from rfl,
        List.find?_cons, List.find?_cons, h1, h2]
      exact ih
    | false =>
      rw [show (if false = true then f u else u) = u from rfl,
        List.find?_cons, List.find?_cons]
      cases hv : (u.telegram_id == tid') with
      | true => rfl
      | false => exact ih

theorem ridon_get_user_update_self (db : DB) (tid : Nat) (f : User → User)
    (hf : ∀ u, (f u).telegram_id = u.telegram_id) :
    get_user_by_telegram_id (update_users db tid f) tid
      = (get_user_by_telegram_id db tid).map f :=
  ridon_find_update_self db.users tid f hf

theorem ridon_get_user_update_other (db : DB) (tid tid' : Nat) (f : User → User)
    (hf : ∀ u, (f u).telegram_id = u.telegram_id) (h : tid' ≠ tid) :
    get_user_by_telegram_id (update_users db tid f) tid'
      = get_user_by_telegram_id db tid' :=
  ridon_find_update_other db.users tid tid' f hf h

theorem ridon_hasLike_append (l : List Like) (e : Like) (a b : Nat) :
    hasLike (l ++ [e]) a b
      = (hasLike l a b || (e.from_user_id == a && e.to_user_id == b)) := by
  simp [hasLike]

theorem ridon_countP_eq_zero_of_hasLike_false (l : List Like) (a b : Nat)
    (h : hasLike l a b = false) :
    l.countP (fun e => e.from_user_id == a && e.to_user_id == b) = 0 := by
  rw [List.countP_eq_zero]
  intro e he
  rw [hasLike, List.any_eq_false] at h
  exact fun hc => h e he hc

/-- C2: a non-premium profile whose daily counter already equals
`LIKES_PER_DAY_FREE` and whose reset date is the current day has any
further `create_like` call refused with no returned profile and no state
change at all: no like row is written, the sender's counter and the
target's `likes_received_total` are untouched. -/
theorem C2_quota_exceeded_no_state_change (db : DB) (fromTid toTid today now : Nat)
    (fu : User)
    (hA : get_user_by_telegram_id db fromTid = some fu)
    (hdate : fu.last_like_reset_date = today)
    (hcnt : fu.likes_given_today = LIKES_PER_DAY_FREE)
    (hprem : fu.is_premium = false) :
    create_like db fromTid toTid today now = ((false, none), db) := by
  cases hB : get_user_by_telegram_id db toTid with
  | none => simp [create_like, hA, hB]
  | some tu => simp [create_like, hA, hB, hdate, hcnt, hprem]


/-- Witness for C2: at `dbC2` (counter 20 = limit, date current) the like
is refused and the state comes back exactly unchanged. -/
theorem C2_quota_exceeded_no_state_change_witness :
    create_like dbC2 1 2 7 99 = ((false, none), dbC2) :=
  C2_quota_exceeded_no_state_change dbC2 1 2 7 99
    { user_id := 1, telegram_id := 1, full_name := "C", age := 30,
      is_active := true, is_banned := false, is_premium := false,
      likes_given_today := 20, likes_received_total := 0,
      last_like_reset_date := 7, updated_at := 0 }
    (by decide) (by decide) (by decide) (by decide)

end Ridon

namespace Ridon


/-- C3 counterexample: in `src/ridon.py`, calling `create_like(1,2)` twice
leaves exactly one like row for the pair, but the duplicate call still
increments the sender's daily counter: it is 1 after the first call and 2
after the second, where the claim requires it to remain 1. -/
theorem C3_duplicate_like_counterexample :
    ((get_user_by_telegram_id (create_like dbC3 1 2 0 0).2 1).map
        (fun u => u.likes_given_today)) = some 1 ∧
    ((get_user_by_telegram_id
        (create_like (create_like dbC3 1 2 0 0).2 1 2 0 0).2 1).map
        (fun u => u.likes_given_today)) = some 2 ∧
    (create_like (create_like dbC3 1 2 0 0).2 1 2 0 0).2.likes.countP
        (fun l => l.from_user_id == 1 && l.to_user_id == 2) = 1 := by
  decide

/-- Characterization of a successful, non-reciprocated `create_like` call in
`src/ridon.py` on a day whose counter is already stamped: the like row is
inserted unless it already exists, the sender's daily counter is
incremented either way, and the target's received counter is incremented
either way. -/
theorem ridon_create_like_sent (db : DB) (aTid bTid today now : Nat) (fu tu : User)
    (hA : get_user_by_telegram_id db aTid = some fu)
    (hB : get_user_by_telegram_id db bTid = some tu)
    (htid : aTid ≠ bTid)
    (hid : fu.user_id ≠ tu.user_id)
    (hdate : fu.last_like_reset_date = today)
    (hq : fu.likes_given_today < LIKES_PER_DAY_FREE)
    (_hprem : fu.is_premium = false)
    (hBA : hasLike db.likes tu.user_id fu.user_id = false) :
    ∃ db', create_like db aTid bTid today now = ((false, some tu), db') ∧
      (hasLike db.likes fu.user_id tu.user_id = false →
        db'.likes = db.likes ++ [⟨fu.user_id, tu.user_id, false⟩]) ∧
      (hasLike db.likes fu.user_id tu.user_id = true → db'.likes = db.likes) ∧
      db'.reports = db.reports ∧
      db'.profile_views = db.profile_views ∧
      get_user_by_telegram_id db' aTid
        = some { fu with likes_given_today := fu.likes_given_today + 1,
                         updated_at := now } ∧
      get_user_by_telegram_id db' bTid
        = some { tu with likes_received_total := tu.likes_received_total + 1,
                         updated_at := now } := by
  have hq1 : ¬ (fu.likes_given_today ≥ LIKES_PER_DAY_FREE ∧ fu.is_premium = false) := by
    intro h
    omega
  by_cases hdup : hasLike db.likes fu.user_id tu.user_id = true
  · have hmut : hasLike db.likes tu.user_id fu.user_id = false := hBA
    refine ⟨update_users (update_users db aTid
        (fun u => { u with likes_given_today := u.likes_given_today + 1,
                           updated_at := now })) bTid
        (fun u => { u with likes_received_total := u.likes_received_total + 1,
                           updated_at := now }), ?_, ?_, ?_, rfl, rfl, ?_, ?_⟩
    · simp [create_like, hA, hB, hdate, hq1, hdup,
        ridon_update_users_likes, hmut]
    · intro hf
      exact absurd hdup (by simp [hf])
    · intro _
      rfl
    · rw [ridon_get_user_update_other _ bTid aTid
        (fun u => { u with likes_received_total := u.likes_received_total + 1, updated_at := now }) (fun u => rfl) htid]
      rw [ridon_get_user_update_self _ aTid
        (fun u => { u with likes_given_today := u.likes_given_today + 1, updated_at := now }) (fun u => rfl), hA]
      rfl
    · rw [ridon_get_user_update_self _ bTid
        (fun u => { u with likes_received_total := u.likes_received_total + 1, updated_at := now }) (fun u => rfl)]
      rw [ridon_get_user_update_other _ aTid bTid
        (fun u => { u with likes_given_today := u.likes_given_today + 1, updated_at := now }) (fun u => rfl) (Ne.symm htid)]
      rw [hB]
      rfl
  · rw [Bool.not_eq_true] at hdup
    have hmut : hasLike (db.likes ++ [⟨fu.user_id, tu.user_id, false⟩])
        tu.user_id fu.user_id = false := by
      rw [ridon_hasLike_append, hBA]
      simp [hid]
    refine ⟨update_users (update_users
        { db with likes := db.likes ++ [⟨fu.user_id, tu.user_id, false⟩] } aTid
        (fun u => { u with likes_given_today := u.likes_given_today + 1,
                           updated_at := now })) bTid
        (fun u => { u with likes_received_total := u.likes_received_total + 1,
                           updated_at := now }), ?_, ?_, ?_, rfl, rfl, ?_, ?_⟩
    · simp [create_like, hA, hB, hdate, hq1, hdup,
        ridon_update_users_likes, hmut]
    · intro _
      rfl
    · intro htr
      exact absurd htr (by simp [hdup])
    · rw [ridon_get_user_update_other _ bTid aTid
        (fun u => { u with likes_received_total := u.likes_received_total + 1, updated_at := now }) (fun u => rfl) htid]
      rw [ridon_get_user_update_self _ aTid
        (fun u => { u with likes_given_today := u.likes_given_today + 1, updated_at := now }) (fun u => rfl)]
      rw [show get_user_by_telegram_id
          { db with likes := db.likes ++ [⟨fu.user_id, tu.user_id, false⟩] } aTid
        = some fu from hA]
      rfl
    · rw [ridon_get_user_update_self _ bTid
        (fun u => { u with likes_received_total := u.likes_received_total + 1, updated_at := now }) (fun u => rfl)]
      rw [ridon_get_user_update_other _ aTid bTid
        (fun u => { u with likes_given_today := u.likes_given_today + 1, updated_at := now }) (fun u => rfl) (Ne.symm htid)]
      rw [show get_user_by_telegram_id
          { db with likes := db.likes ++ [⟨fu.user_id, tu.user_id, false⟩] } bTid
        = some tu from hB]
      rfl

end Ridon

namespace Ridon

/-- C3 (amended): with no intervening reciprocal like, calling
`create_like(A,B)` twice leaves exactly one like row for the ordered pair
(A,B), but the duplicate call is not free: each call consumes a quota
unit, so the counter after the second call is one more than after the
first (`src/ridon.py` increments the counter even when the insert was
ignored). -/
theorem C3_duplicate_like_one_row_each_call_counts
    (db : DB) (aTid bTid today now1 now2 : Nat) (fu tu : User)
    (hA : get_user_by_telegram_id db aTid = some fu)
    (hB : get_user_by_telegram_id db bTid = some tu)
    (htid : aTid ≠ bTid)
    (hid : fu.user_id ≠ tu.user_id)
    (hdate : fu.last_like_reset_date = today)
    (hq : fu.likes_given_today + 1 < LIKES_PER_DAY_FREE)
    (hprem : fu.is_premium = false)
    (hAB : hasLike db.likes fu.user_id tu.user_id = false)
    (hBA : hasLike db.likes tu.user_id fu.user_id = false) :
    get_user_by_telegram_id (create_like db aTid bTid today now1).2 aTid
      = some { fu with likes_given_today := fu.likes_given_today + 1,
                       updated_at := now1 } ∧
    get_user_by_telegram_id
        (create_like (create_like db aTid bTid today now1).2 aTid bTid today now2).2 aTid
      = some { fu with likes_given_today := fu.likes_given_today + 1 + 1,
                       updated_at := now2 } ∧
    (create_like (create_like db aTid bTid today now1).2 aTid bTid today now2).2.likes.countP
        (fun l => l.from_user_id == fu.user_id && l.to_user_id == tu.user_id) = 1 := by
  obtain ⟨db1, e1, hlf1, -, -, -, hup1A, hup1B⟩ :=
    ridon_create_like_sent db aTid bTid today now1 fu tu hA hB htid hid hdate
      (by omega) hprem hBA
  have hl1 : db1.likes = db.likes ++ [⟨fu.user_id, tu.user_id, false⟩] := hlf1 hAB
  have hBA2 : hasLike db1.likes tu.user_id fu.user_id = false := by
    rw [hl1, ridon_hasLike_append, hBA]
    simp [hid]
  obtain ⟨db2, e2, -, hlt2, -, -, hup2A, -⟩ :=
    ridon_create_like_sent db1 aTid bTid today now2
      { fu with likes_given_today := fu.likes_given_today + 1, updated_at := now1 }
      { tu with likes_received_total := tu.likes_received_total + 1, updated_at := now1 }
      hup1A hup1B htid hid hdate
      (show fu.likes_given_today + 1 < LIKES_PER_DAY_FREE from hq) hprem hBA2
  have hdup2 : hasLike db1.likes fu.user_id tu.user_id = true := by
    rw [hl1, ridon_hasLike_append]
    simp
  have hl2 : db2.likes = db1.likes := hlt2 hdup2
  rw [e1]
  refine ⟨hup1A, ?_, ?_⟩
  · rw [e2]
    exact hup2A
  · rw [e2]
    show db2.likes.countP _ = 1
    rw [hl2, hl1, List.countP_append,
      ridon_countP_eq_zero_of_hasLike_false db.likes fu.user_id tu.user_id hAB]
    simp [List.countP_cons]

/-- Witness for the amended C3 at `dbC3`: the counter is 1 after the first
call and 2 after the duplicate, while exactly one like row exists. -/
theorem C3_duplicate_like_one_row_each_call_counts_witness :
    get_user_by_telegram_id (create_like dbC3 1 2 0 3).2 1
      = some { user_id := 1, telegram_id := 1, full_name := "A", age := 30,
               is_active := true, is_banned := false, is_premium := false,
               likes_given_today := 1, likes_received_total := 0,
               last_like_reset_date := 0, updated_at := 3 } ∧
    get_user_by_telegram_id (create_like (create_like dbC3 1 2 0 3).2 1 2 0 4).2 1
      = some { user_id := 1, telegram_id := 1, full_name := "A", age := 30,
               is_active := true, is_banned := false, is_premium := false,
               likes_given_today := 2, likes_received_total := 0,
               last_like_reset_date := 0, updated_at := 4 } ∧
    (create_like (create_like dbC3 1 2 0 3).2 1 2 0 4).2.likes.countP
        (fun l => l.from_user_id == 1 && l.to_user_id == 2) = 1 :=
  C3_duplicate_like_one_row_each_call_counts dbC3 1 2 0 3 4
    { user_id := 1, telegram_id := 1, full_name := "A", age := 30,
      is_active := true, is_banned := false, is_premium := false,
      likes_given_today := 0, likes_received_total := 0,
      last_like_reset_date := 0, updated_at := 0 }
    { user_id := 2, telegram_id := 2, full_name := "B", age := 25,
      is_active := true, is_banned := false, is_premium := false,
      likes_given_today := 0, likes_received_total := 0,
      last_like_reset_date := 0, updated_at := 0 }
    (by decide) (by decide) (by decide) (by decide) (by decide) (by decide)
    (by decide) (by decide) (by decide)

end Ridon


namespace Ridon

theorem ridon_users_ite (c : Prop) [Decidable c] (a b : DB) :
    (if c then a else b).users = if c then a.users else b.users := by
  by_cases h : c <;> simp [h]

theorem ridon_reset_stale (db : DB) (tid today : Nat) (u : User)
    (hu : get_user_by_telegram_id db tid = some u)
    (hne : u.last_like_reset_date ≠ today) :
    reset_daily_likes_if_needed db tid today
      = update_users db tid
          (fun v => { v with likes_given_today := 0, last_like_reset_date := today }) := by
  unfold reset_daily_likes_if_needed
  rw [hu]
  show (if u.last_like_reset_date ≠ today then
      update_users db tid
        (fun v => { v with likes_given_today := 0, last_like_reset_date := today })
    else db) = _
  rw [if_pos hne]

theorem ridon_reset_noop (db : DB) (tid today : Nat) (u : User)
    (hu : get_user_by_telegram_id db tid = some u)
    (he : u.last_like_reset_date = today) :
    reset_daily_likes_if_needed db tid today = db := by
  unfold reset_daily_likes_if_needed
  rw [hu]
  show (if u.last_like_reset_date ≠ today then
      update_users db tid
        (fun v => { v with likes_given_today := 0, last_like_reset_date := today })
    else db) = db
  rw [if_neg (fun h => h he)]

/-- C6: `reset_daily_likes_if_needed` zeroes the counter and stamps the date
iff the stored date differs from today — so a second reset the same day is
a no-op and the counter is zeroed at most once per calendar day — and on a
day already stamped a `create_like` call moves the counter by zero or one
and never pushes a non-premium profile's counter past
`LIKES_PER_DAY_FREE`. -/
theorem C6_daily_reset_and_quota_bound (db : DB) (tid today : Nat) (u : User)
    (hu : get_user_by_telegram_id db tid = some u) :
    (u.last_like_reset_date ≠ today →
      get_user_by_telegram_id (reset_daily_likes_if_needed db tid today) tid
        = some { u with likes_given_today := 0, last_like_reset_date := today }) ∧
    (u.last_like_reset_date = today →
      reset_daily_likes_if_needed db tid today = db) ∧
    (reset_daily_likes_if_needed (reset_daily_likes_if_needed db tid today) tid today
      = reset_daily_likes_if_needed db tid today) ∧
    (∀ toTid now u', u.last_like_reset_date = today →
      get_user_by_telegram_id (create_like db tid toTid today now).2 tid = some u' →
      ((u'.likes_given_today = u.likes_given_today ∨
        u'.likes_given_today = u.likes_given_today + 1) ∧
       (u.is_premium = false → u.likes_given_today ≤ LIKES_PER_DAY_FREE →
         u'.likes_given_today ≤ LIKES_PER_DAY_FREE))) := by
  refine ⟨?_, ?_, ?_, ?_⟩
  · intro hne
    rw [ridon_reset_stale db tid today u hu hne,
      ridon_get_user_update_self _ tid
        (fun v => { v with likes_given_today := 0, last_like_reset_date := today })
        (fun v => rfl), hu]
    rfl
  · intro he
    exact ridon_reset_noop db tid today u hu he
  · by_cases hst : u.last_like_reset_date = today
    · rw [ridon_reset_noop db tid today u hu hst]
      exact ridon_reset_noop db tid today u hu hst
    · have h1 : get_user_by_telegram_id (reset_daily_likes_if_needed db tid today) tid
          = some { u with likes_given_today := 0, last_like_reset_date := today } := by
        rw [ridon_reset_stale db tid today u hu hst,
          ridon_get_user_update_self _ tid
            (fun v => { v with likes_given_today := 0, last_like_reset_date := today })
            (fun v => rfl), hu]
        rfl
      exact ridon_reset_noop _ tid today _ h1 rfl
  · intro toTid now u' hdate hu'
    cases hBt : get_user_by_telegram_id db toTid with
    | none =>
      rw [show (create_like db tid toTid today now).2 = db by
        simp [create_like, hu, hBt]] at hu'
      rw [hu] at hu'
      injection hu' with h
      refine ⟨Or.inl (by rw [← h]), ?_⟩
      intro _ hb
      rw [← h]
      exact hb
    | some tu =>
      by_cases hq : (u.likes_given_today ≥ LIKES_PER_DAY_FREE ∧ u.is_premium = false)
      · rw [show (create_like db tid toTid today now).2 = db by
          simp [create_like, hu, hBt, hdate, hq]] at hu'
        rw [hu] at hu'
        injection hu' with h
        refine ⟨Or.inl (by rw [← h]), ?_⟩
        intro _ hb
        rw [← h]
        exact hb
      · have husers : (create_like db tid toTid today now).2.users
            = (db.users.map (fun v => if v.telegram_id == tid then
                { v with likes_given_today := v.likes_given_today + 1,
                         updated_at := now } else v)).map
              (fun v => if v.telegram_id == toTid then
                { v with likes_received_total := v.likes_received_total + 1,
                         updated_at := now } else v) := by
          simp [create_like, hu, hBt, hdate, hq, ridon_users_ite, update_users]
        rw [show get_user_by_telegram_id (create_like db tid toTid today now).2 tid
            = ((create_like db tid toTid today now).2.users).find?
                (fun v => v.telegram_id == tid) from rfl, husers] at hu'
        by_cases htt : toTid = tid
        · rw [htt] at hu'
          rw [ridon_find_update_self _ tid
              (fun v => { v with likes_received_total := v.likes_received_total + 1,
                                 updated_at := now })
              (fun v => rfl),
            ridon_find_update_self _ tid
              (fun v => { v with likes_given_today := v.likes_given_today + 1,
                                 updated_at := now })
              (fun v => rfl),
            show db.users.find? (fun v => v.telegram_id == tid) = some u from hu] at hu'
          simp only [Option.map_some'] at hu'
          injection hu' with h
          refine ⟨Or.inr (by rw [← h]), ?_⟩
          intro hprem hb
          rw [← h]
          show u.likes_given_today + 1 ≤ LIKES_PER_DAY_FREE
          have hlt : ¬ (u.likes_given_today ≥ LIKES_PER_DAY_FREE) :=
            fun hge => hq ⟨hge, hprem⟩
          omega
        · rw [ridon_find_update_other _ toTid tid
              (fun v => { v with likes_received_total := v.likes_received_total + 1,
                                 updated_at := now })
              (fun v => rfl) (Ne.symm htt),
            ridon_find_update_self _ tid
              (fun v => { v with likes_given_today := v.likes_given_today + 1,
                                 updated_at := now })
              (fun v => rfl),
            show db.users.find? (fun v => v.telegram_id == tid) = some u from hu] at hu'
          simp only [Option.map_some'] at hu'
          injection hu' with h
          refine ⟨Or.inr (by rw [← h]), ?_⟩
          intro hprem hb
          rw [← h]
          show u.likes_given_today + 1 ≤ LIKES_PER_DAY_FREE
          have hlt : ¬ (u.likes_given_today ≥ LIKES_PER_DAY_FREE) :=
            fun hge => hq ⟨hge, hprem⟩
          omega

end Ridon

namespace Ridon

/-- Witness for C6 at `dbC3`: a stale date (5) triggers the reset, a current
date (0) is a no-op, the reset is idempotent, and a like on a stamped day
moves the counter from 0 to 1 without passing the limit. -/
theorem C6_daily_reset_and_quota_bound_witness :
    get_user_by_telegram_id (reset_daily_likes_if_needed dbC3 1 5) 1
      = some { user_id := 1, telegram_id := 1, full_name := "A", age := 30,
               is_active := true, is_banned := false, is_premium := false,
               likes_given_today := 0, likes_received_total := 0,
               last_like_reset_date := 5, updated_at := 0 } ∧
    reset_daily_likes_if_needed dbC3 1 0 = dbC3 ∧
    reset_daily_likes_if_needed (reset_daily_likes_if_needed dbC3 1 5) 1 5
      = reset_daily_likes_if_needed dbC3 1 5 ∧
    (((1 : Nat) = 0 ∨ (1 : Nat) = 0 + 1) ∧
     (false = false → (0 : Nat) ≤ LIKES_PER_DAY_FREE →
       (1 : Nat) ≤ LIKES_PER_DAY_FREE)) :=
  have h5 := C6_daily_reset_and_quota_bound dbC3 1 5
    { user_id := 1, telegram_id := 1, full_name := "A", age := 30,
      is_active := true, is_banned := false, is_premium := false,
      likes_given_today := 0, likes_received_total := 0,
      last_like_reset_date := 0, updated_at := 0 } (by decide)
  have h0 := C6_daily_reset_and_quota_bound dbC3 1 0
    { user_id := 1, telegram_id := 1, full_name := "A", age := 30,
      is_active := true, is_banned := false, is_premium := false,
      likes_given_today := 0, likes_received_total := 0,
      last_like_reset_date := 0, updated_at := 0 } (by decide)
  ⟨h5.1 (by decide), h0.2.1 (by decide), h5.2.2.1,
   h0.2.2.2 2 9
     { user_id := 1, telegram_id := 1, full_name := "A", age := 30,
       is_active := true, is_banned := false, is_premium := false,
       likes_given_today := 1, likes_received_total := 0,
       last_like_reset_date := 0, updated_at := 9 } (by decide) (by decide)⟩

/-- C8: the name/age step parses free text as all-tokens-but-last = name and
last token = integer age.  With fewer than two tokens, a non-integer last
token, or an age outside [18,100], both the registration and the edit
handlers re-enter their state with the buffer / store untouched; otherwise
the registration handler stores the parsed name and age and advances to
the gender step, and the edit handler persists exactly the parsed name and
age (stamping `updated_at`) and returns to the edit menu. -/
theorem C8_name_age_token_parse (text : String) (reg : RegistrationData)
    (db : DB) (tid now : Nat) :
    ((tokens text).length < 2 →
      handle_registration_name_age text reg = (States.REG_NAME_AGE, reg) ∧
      handle_edit_name_age_input text db tid now = (States.EDIT_NAME_AGE, db)) ∧
    (∀ lastTok, (tokens text).getLast? = some lastTok →
      int_of_string lastTok = none →
      handle_registration_name_age text reg = (States.REG_NAME_AGE, reg) ∧
      handle_edit_name_age_input text db tid now = (States.EDIT_NAME_AGE, db)) ∧
    (∀ lastTok age, (tokens text).getLast? = some lastTok →
      int_of_string lastTok = some age →
      ¬ (18 ≤ age ∧ age ≤ 100) →
      handle_registration_name_age text reg = (States.REG_NAME_AGE, reg) ∧
      handle_edit_name_age_input text db tid now = (States.EDIT_NAME_AGE, db)) ∧
    (∀ lastTok age, ¬ ((tokens text).length < 2) →
      (tokens text).getLast? = some lastTok →
      int_of_string lastTok = some age →
      18 ≤ age → age ≤ 100 →
      handle_registration_name_age text reg
        = (States.REG_GENDER,
           { reg with
               full_name := some (String.intercalate " " (tokens text).dropLast),
               age := some age }) ∧
      handle_edit_name_age_input text db tid now
        = (States.EDIT_PROFILE,
           update_users db tid (fun u =>
             { u with full_name := String.intercalate " " (tokens text).dropLast,
                      age := age, updated_at := now }))) := by
  refine ⟨?_, ?_, ?_, ?_⟩
  · intro hlen
    constructor
    · simp [handle_registration_name_age, hlen]
    · simp [handle_edit_name_age_input, hlen]
  · intro lastTok hlast hparse
    by_cases hlen : (tokens text).length < 2
    · constructor
      · simp [handle_registration_name_age, hlen]
      · simp [handle_edit_name_age_input, hlen]
    · constructor
      · simp [handle_registration_name_age, hlen, hlast, hparse]
      · simp [handle_edit_name_age_input, hlen, hlast, hparse]
  · intro lastTok age hlast hparse hrange
    by_cases hlen : (tokens text).length < 2
    · constructor
      · simp [handle_registration_name_age, hlen]
      · simp [handle_edit_name_age_input, hlen]
    · constructor
      · simp [handle_registration_name_age, hlen, hlast, hparse, hrange]
      · simp [handle_edit_name_age_input, hlen, hlast, hparse, hrange]
  · intro lastTok age hlen hlast hparse h18 h100
    constructor
    · simp [handle_registration_name_age, hlen, hlast, hparse, h18, h100]
    · simp [handle_edit_name_age_input, hlen, hlast, hparse, h18, h100]

/-- Witness for C8: the text `Anna 24` advances both flows with name `Anna`
and age 24; the single-token text `Anna` re-enters the state untouched. -/
theorem C8_name_age_token_parse_witness :
    (handle_registration_name_age "Anna 24" {}
      = (States.REG_GENDER, { full_name := some "Anna", age := some 24 }) ∧
     handle_edit_name_age_input "Anna 24" dbC3 1 9
      = (States.EDIT_PROFILE,
         update_users dbC3 1 (fun u =>
           { u with full_name := "Anna", age := 24, updated_at := 9 }))) ∧
    (handle_registration_name_age "Anna" {}
      = (States.REG_NAME_AGE, {}) ∧
     handle_edit_name_age_input "Anna" dbC3 1 9
      = (States.EDIT_NAME_AGE, dbC3)) :=
  ⟨(C8_name_age_token_parse "Anna 24" {} dbC3 1 9).2.2.2 "24" 24
      (by decide) (by decide) (by decide) (by decide) (by decide),
   (C8_name_age_token_parse "Anna" {} dbC3 1 9).1 (by decide)⟩


/-- C9 (the failing input): `delete_user` removes only the `users` row.
Because `src/ridon.py` never issues `PRAGMA foreign_keys = ON`, sqlite3
leaves foreign-key enforcement off and the schema's `ON DELETE CASCADE`
clauses never fire, so after deleting user 1 the like, report and
profile-view rows naming internal id 1 all remain in the store. -/
theorem C9_delete_user_leaves_referencing_rows :
    (delete_user dbC9 11).users.map (fun u => u.user_id) = [2] ∧
    (delete_user dbC9 11).likes = [⟨2, 1, false⟩] ∧
    (delete_user dbC9 11).reports = [⟨2, 1, "spam", "pending"⟩] ∧
    (delete_user dbC9 11).profile_views = [⟨2, 1⟩] := by
  decide

end Ridon
